import Mathlib

/-!
Verification of the contacts-repository layer of a contacts-management API
(`src/repository/contacts.py`): owner-scoped CRUD, dynamic search filters,
and the upcoming-birthday window query.  The Python functions are embedded
shallowly: the ORM session becomes an explicit list of rows, `Query.first()`
becomes `List.find?`, `filter` becomes `List.filter`, `offset/limit` become
`drop/take`, and a raised `HTTPException` becomes `Except.error`.
-/

namespace Contacts

/-- A calendar date (`datetime.date`): year, month, day. -/
structure Date where
  year : Nat
  month : Nat
  day : Nat
deriving DecidableEq, Repr

/-- Gregorian leap-year rule, as implemented by `datetime`. -/
def isLeapYear (y : Nat) : Bool :=
  (y % 4 == 0 && y % 100 != 0) || y % 400 == 0

/-- Number of days in a month of a given year (Gregorian calendar). -/
def daysInMonth (y m : Nat) : Nat :=
  if m == 2 then (if isLeapYear y then 29 else 28)
  else if m == 4 || m == 6 || m == 9 || m == 11 then 30
  else 31

/-- The day after a given date, rolling over month and year boundaries. -/
def nextDay (d : Date) : Date :=
  if d.day < daysInMonth d.year d.month then ⟨d.year, d.month, d.day + 1⟩
  else if d.month < 12 then ⟨d.year, d.month + 1, 1⟩
  else ⟨d.year + 1, 1, 1⟩

/-- `d + timedelta(days = n)`. -/
def addDays (d : Date) : Nat → Date
  | 0 => d
  | n + 1 => addDays (nextDay d) n

/-- A Python value stored in a string attribute of a `Contact` ORM object:
either a plain string, or a 1-tuple `(s,)` — the value produced by an
assignment with a trailing comma, as in `contact.firstname = body.firstname,`
in `update_contact`. -/
inductive PyStr where
  | str : String → PyStr
  | tuple1 : String → PyStr
deriving DecidableEq, Repr

/-- `true` when the attribute holds a plain string (the only shape
`create_contact` ever stores, and the only shape a text column can hold). -/
def PyStr.isScalar : PyStr → Bool
  | .str _ => true
  | .tuple1 _ => false

/-- The requesting user; the repository only reads `user.id`. -/
structure User where
  id : Nat
deriving DecidableEq, Repr

/-- The validated request body (`src/schemas.py`, `ContactModel`): five
scalar fields. -/
structure ContactModel where
  firstname : String
  lastname : String
  email : String
  phone : String
  birthday : Date
deriving DecidableEq, Repr

/-- A stored `Contact` row / ORM object (fields as used by
`src/repository/contacts.py`): id, the five scalar fields, and the owner
foreign key `user_id`. -/
structure Contact where
  id : Nat
  firstname : PyStr
  lastname : PyStr
  email : PyStr
  phone : PyStr
  birthday : Date
  user_id : Nat
deriving DecidableEq, Repr

/-- All string attributes of the row are plain strings — the store invariant
for committed rows (a tuple cannot be bound into a text column). -/
def Contact.scalarRow (c : Contact) : Bool :=
  c.firstname.isScalar && c.lastname.isScalar && c.email.isScalar && c.phone.isScalar

/-- `pat` occurs as a contiguous sublist of `s`. -/
def hasSub (pat : List Char) : List Char → Bool
  | [] => pat.isEmpty
  | c :: rest => pat.isPrefixOf (c :: rest) || hasSub pat rest

/-- Case-insensitive substring containment: the reading the spec gives to a
filter match ("contains"), stated here for comparison with the code's
`ILIKE` semantics. -/
def strContainsCI (s pat : String) : Bool :=
  hasSub (pat.toList.map Char.toLower) (s.toList.map Char.toLower)

/-- SQL `LIKE` pattern matching over characters: `%` matches any (possibly
empty) run of characters, `_` matches exactly one character, and any other
pattern character matches a single character case-insensitively (the `I` of
`ILIKE`).  The source passes no `ESCAPE` clause and the SQL dialect is not
fixed by the sources (the database URL comes from the environment), so the
backslash is treated as an ordinary character; all dialects agree on
backslash-free patterns. -/
def likeMatch : List Char → List Char → Bool
  | [], s => s.isEmpty
  | p :: ps, s =>
    if p == '%' then s.tails.any (fun t => likeMatch ps t)
    else
      match s with
      | [] => false
      | c :: tl => (p == '_' || p.toLower == c.toLower) && likeMatch ps tl

/-- `Contact.field.ilike(f"%{pat}%")` applied to a stored attribute value:
`LIKE` matching against the pattern `'%' + pat + '%'`, with `%` and `_`
inside `pat` acting as wildcards.  A `tuple1` value can never reach a text
column (the database driver rejects the bind before commit), so that arm is
unreachable for committed rows; it is mapped to `false`. -/
def ilikeContains (v : PyStr) (pat : String) : Bool :=
  match v with
  | .str s => likeMatch ('%' :: pat.toList ++ ['%']) s.toList
  | .tuple1 _ => false

/-- The spec's reading of a filter match on a stored attribute: the filter
value is a case-insensitive substring of the field (for comparison with the
code's `ilikeContains`). -/
def specContains (v : PyStr) (pat : String) : Bool :=
  match v with
  | .str s => strContainsCI s pat
  | .tuple1 _ => false

/-- The character is no SQL pattern metacharacter: `%`, `_` and the
dialect-dependent escape character `\` are excluded, so `likeMatch` treats
it purely literally under every dialect. -/
def plainChar (c : Char) : Bool := !(c == '%') && !(c == '_') && !(c == '\\')

/-- The optional filter value contains no SQL pattern metacharacter. -/
def plainPat : Option String → Bool
  | none => true
  | some s => s.toList.all plainChar

/-- `db.query(Contact).filter(and_(Contact.id == contact_id,
Contact.user_id == user.id)).first()` — the body of `get_contact`. -/
def get_contact (contact_id : Nat) (user : User) (db : List Contact) : Option Contact :=
  db.find? (fun c => c.id == contact_id && c.user_id == user.id)

/-- Modelled from the spec: `src/database/models.py` is not among the
sources; per the spec the store guarantees unique, monotonically assigned
integer ids (autoincrement primary key).  The next id is one more than the
largest id in the store. -/
def nextId (db : List Contact) : Nat :=
  (db.map Contact.id).foldr Nat.max 0 + 1

/-- `create_contact`: build a `Contact` from the five body fields and the
requesting user, add and commit it; `db.refresh` fills in the generated id.
Returns the new row and the new store. -/
def create_contact (body : ContactModel) (user : User) (db : List Contact) :
    Contact × List Contact :=
  let contact : Contact :=
    { id := nextId db
      firstname := .str body.firstname
      lastname := .str body.lastname
      email := .str body.email
      phone := .str body.phone
      birthday := body.birthday
      user_id := user.id }
  (contact, db ++ [contact])

/-- Replace the first element satisfying `p` (the ORM mutates the one
identity-mapped object found by `.first()`). -/
def replaceFirst (p : Contact → Bool) (c2 : Contact) : List Contact → List Contact
  | [] => []
  | x :: xs => if p x then c2 :: xs else x :: replaceFirst p c2 xs

/-- `update_contact`: find the row by id and owner; if present, execute the
five assignment statements and commit.  Four of the five assignments in the
source carry a trailing comma (`contact.firstname = body.firstname,` and
likewise for lastname, email, phone), so they assign the Python 1-tuple
`(value,)`, not the string; only `birthday` is assigned the plain value.
Returns the (mutated) object and the store holding the assigned attribute
values. -/
def update_contact (contact_id : Nat) (body : ContactModel) (user : User)
    (db : List Contact) : Option Contact × List Contact :=
  match db.find? (fun c => c.id == contact_id && c.user_id == user.id) with
  | none => (none, db)
  | some c =>
    let c2 : Contact :=
      { c with
        firstname := .tuple1 body.firstname
        lastname := .tuple1 body.lastname
        email := .tuple1 body.email
        phone := .tuple1 body.phone
        birthday := body.birthday }
    (some c2, replaceFirst (fun x => x.id == contact_id && x.user_id == user.id) c2 db)

/-- `remove_contact`: find the row by id and owner; if present, delete it
and commit.  Returns the removed row (or `none`) and the new store. -/
def remove_contact (contact_id : Nat) (user : User) (db : List Contact) :
    Option Contact × List Contact :=
  match db.find? (fun c => c.id == contact_id && c.user_id == user.id) with
  | none => (none, db)
  | some c =>
    (some c, db.eraseP (fun x => x.id == contact_id && x.user_id == user.id))

/-- One step of the dynamic filter construction of `search_contacts`:
`if x: filters.append(Contact.field.ilike(f"%{x}%"))`.  Python truthiness of
a string is `s != ""`, so an empty string, like `None`, appends nothing. -/
def filterComponent (field : Contact → PyStr) (o : Option String) : List (Contact → Bool) :=
  match o with
  | none => []
  | some s => if s == "" then [] else [fun c => ilikeContains (field c) s]

/-- The dynamic filter list of `search_contacts`: the firstname, lastname
and email conjuncts appended in that order. -/
def buildFilters (firstname lastname email : Option String) : List (Contact → Bool) :=
  filterComponent Contact.firstname firstname ++
  filterComponent Contact.lastname lastname ++
  filterComponent Contact.email email

/-- Python truthiness of an optional string (`if firstname:`). -/
def pySupplied : Option String → Bool
  | none => false
  | some s => !(s == "")

/-- `search_contacts`: build the filter list; with no filters raise
`HTTPException(400, "Search criteria are not specified")`; otherwise query
rows matching all filters and the owner scope, with `offset(skip)` and
`limit(limit)`. -/
def search_contacts (skip limit : Nat) (firstname lastname email : Option String)
    (user : User) (db : List Contact) : Except String (List Contact) :=
  let filters := buildFilters firstname lastname email
  if filters.isEmpty then
    .error "Search criteria are not specified"
  else
    .ok (((db.filter
      (fun c => filters.all (fun p => p c) && c.user_id == user.id)).drop skip).take limit)

/-- `get_upcoming_birthdays`: `today = date.today()` is passed explicitly;
`seven_days_later = today + timedelta(days=7)`.  The query conjoins
(`and_`) the month/day condition at `today` with the month/day condition at
`seven_days_later`; it applies no owner filter and ignores `skip` and
`limit`, exactly as the source does. -/
def get_upcoming_birthdays (skip limit : Nat) (user : User) (db : List Contact)
    (today : Date) : List Contact :=
  let seven_days_later := addDays today 7
  db.filter (fun c =>
    (c.birthday.month == today.month && decide (today.day ≤ c.birthday.day)) &&
    (c.birthday.month == seven_days_later.month &&
      decide (c.birthday.day ≤ seven_days_later.day)))

/-- The match condition the spec states for a 7-day window spanning two
months (written from the spec's words, for comparison with the code):
`(month == start.month AND day >= start.day) OR
 (month == end.month AND day <= end.day)`. -/
def specWrapMatch (start finish b : Date) : Bool :=
  (b.month == start.month && decide (start.day ≤ b.day)) ||
  (b.month == finish.month && decide (b.day ≤ finish.day))

/-- The match condition the spec states when the window stays inside one
month (written from the spec's words, for comparison with the code):
`month == start.month AND day >= start.day AND day <= end.day`. -/
def specNoWrapMatch (start finish b : Date) : Bool :=
  b.month == start.month && decide (start.day ≤ b.day) && decide (b.day ≤ finish.day)

/-- One conjunct of the spec's search predicate: a supplied filter value
must be contained in the field, an absent one constrains nothing. -/
def specConjunct (field : Contact → PyStr) (o : Option String) (c : Contact) : Bool :=
  match o with
  | none => true
  | some s => specContains (field c) s

/-- The search predicate as the spec words it (for comparison with the
code): each supplied filter value is a case-insensitive substring of the
corresponding field, conjoined with the owner-scope predicate. -/
def specSearchMatch (firstname lastname email : Option String) (user : User)
    (c : Contact) : Bool :=
  specConjunct Contact.firstname firstname c &&
  (specConjunct Contact.lastname lastname c &&
  (specConjunct Contact.email email c &&
  (c.user_id == user.id)))

/-- Today for the month-wraparound example: 2024-12-28. -/
def dec28 : Date := ⟨2024, 12, 28⟩

/-- Today for the no-wraparound example: 2024-03-01. -/
def mar01 : Date := ⟨2024, 3, 1⟩

/-- A stored contact of user 1 with birthday Dec 30. -/
def amyDec30 : Contact :=
  { id := 1, firstname := .str "Amy", lastname := .str "Pond",
    email := .str "amy@example.com", phone := .str "123",
    birthday := ⟨1990, 12, 30⟩, user_id := 1 }

/-- A stored contact of user 1 with birthday Jan 2. -/
def ianJan02 : Contact :=
  { id := 2, firstname := .str "Ian", lastname := .str "Dury",
    email := .str "ian@example.com", phone := .str "456",
    birthday := ⟨1985, 1, 2⟩, user_id := 1 }

/-- A stored contact owned by user 2 with birthday Mar 5. -/
def bobMar05 : Contact :=
  { id := 3, firstname := .str "Bob", lastname := .str "Ross",
    email := .str "bob@example.com", phone := .str "789",
    birthday := ⟨1995, 3, 5⟩, user_id := 2 }

/-- A stored contact of user 1 with birthday Mar 5. -/
def calMar05 : Contact :=
  { id := 4, firstname := .str "Cal", lastname := .str "Lee",
    email := .str "cal@example.com", phone := .str "321",
    birthday := ⟨1970, 3, 5⟩, user_id := 1 }

/-- A stored contact of user 1 with birthday Mar 10. -/
def donMar10 : Contact :=
  { id := 5, firstname := .str "Don", lastname := .str "Kim",
    email := .str "don@example.com", phone := .str "654",
    birthday := ⟨1960, 3, 10⟩, user_id := 1 }

/-- A stored contact of user 1: the pre-update row of the update example. -/
def johnRow : Contact :=
  { id := 1, firstname := .str "John", lastname := .str "Smith",
    email := .str "john@example.com", phone := .str "111",
    birthday := ⟨1980, 5, 5⟩, user_id := 1 }

/-- The full field set supplied to the update example. -/
def janeBody : ContactModel :=
  { firstname := "Jane", lastname := "Doe", email := "jane@example.com",
    phone := "222", birthday := ⟨1991, 1, 1⟩ }

/-- First row of the spec's search test vector, owned by user 1. -/
def spiderRow : Contact :=
  { id := 1, firstname := .str "Spider", lastname := .str "Man",
    email := .str "spider@man.com", phone := .str "123",
    birthday := ⟨1990, 1, 1⟩, user_id := 1 }

/-- Second row of the spec's search test vector, owned by user 1. -/
def starkRow : Contact :=
  { id := 2, firstname := .str "Tony", lastname := .str "Stark",
    email := .str "stark@marvel.com", phone := .str "456",
    birthday := ⟨1970, 5, 29⟩, user_id := 1 }

/-- A stored contact of user 1 whose firstname is "abc": test vector for
the wildcard behavior of the `ILIKE` filter. -/
def abcRow : Contact :=
  { id := 6, firstname := .str "abc", lastname := .str "Lee",
    email := .str "abc@example.com", phone := .str "000",
    birthday := ⟨1975, 6, 6⟩, user_id := 1 }

/-- Some tail is always empty (the last one). -/
theorem any_tails_isEmpty (t : List Char) : t.tails.any (fun u => u.isEmpty) = true := by
  induction t with
  | nil => simp
  | cons c tl ih => simp [List.tails_cons, ih]

/-- The pattern consisting of a single `%` matches everything. -/
theorem likeMatch_pct_nil (t : List Char) : likeMatch ['%'] t = true := by
  simp [likeMatch, any_tails_isEmpty]

/-- `any` over the tails of a list under a constantly-true test. -/
theorem any_tails_true (f : List Char → Bool) (hf : ∀ t, f t = true) (l : List Char) :
    l.tails.any f = true := by
  induction l with
  | nil => simp [hf]
  | cons c tl ih => simp [List.tails_cons, hf]

/-- The empty search pattern (`ILIKE '%%'`) matches every scalar
attribute. -/
theorem ilikeContains_empty_pat (v : PyStr) (h : v.isScalar = true) :
    ilikeContains v "" = true := by
  cases v with
  | str s =>
    show likeMatch ('%' :: "".toList ++ ['%']) s.toList = true
    simp only [likeMatch, beq_self_eq_true, if_true]
    exact any_tails_true _ likeMatch_pct_nil _
  | tuple1 s => simp [PyStr.isScalar] at h

/-- A metacharacter-free pattern followed by `%` matches exactly the
strings it prefixes, case-insensitively. -/
theorem likeMatch_append_pct (pl : List Char) (hw : ∀ c ∈ pl, plainChar c = true)
    (t : List Char) :
    likeMatch (pl ++ ['%']) t = (pl.map Char.toLower).isPrefixOf (t.map Char.toLower) := by
  induction pl generalizing t with
  | nil => simp [likeMatch_pct_nil, List.isPrefixOf]
  | cons p ps ih =>
    have hp := hw p (by simp)
    have hps : ∀ c ∈ ps, plainChar c = true := fun c hc => hw c (by simp [hc])
    simp only [plainChar, Bool.and_eq_true, Bool.not_eq_eq_eq_not, Bool.not_true] at hp
    obtain ⟨⟨h1, h2⟩, h3⟩ := hp
    cases t with
    | nil =>
      simp [likeMatch, h1, List.isPrefixOf]
    | cons c tl =>
      simp [likeMatch, h1, h2, ih hps, List.isPrefixOf]

/-- Prefixing some tail is the same as containing a sublist. -/
theorem any_tails_prefix (pl0 : List Char) (s : List Char) :
    s.tails.any (fun t => pl0.isPrefixOf (t.map Char.toLower))
      = hasSub pl0 (s.map Char.toLower) := by
  induction s with
  | nil => cases pl0 <;> simp [hasSub, List.isPrefixOf, List.isEmpty]
  | cons c tl ih => simp [List.tails_cons, hasSub, ih]

/-- On a metacharacter-free filter value, the code's `ILIKE '%value%'`
coincides with the spec's case-insensitive substring containment. -/
theorem ilikeContains_plain (v : PyStr) (pat : String)
    (hw : ∀ c ∈ pat.toList, plainChar c = true) (hv : v.isScalar = true) :
    ilikeContains v pat = specContains v pat := by
  cases v with
  | tuple1 s => simp [PyStr.isScalar] at hv
  | str s =>
    show likeMatch ('%' :: pat.toList ++ ['%']) s.toList = strContainsCI s pat
    rw [strContainsCI]
    simp only [likeMatch, beq_self_eq_true, if_true, List.append_eq,
      likeMatch_append_pct pat.toList hw]
    exact any_tails_prefix _ _

/-- `find?` misses every element a pointwise-false predicate misses. -/
theorem find?_eq_none_all (p : Contact → Bool) (l : List Contact)
    (h : ∀ x ∈ l, p x = false) : l.find? p = none := by
  induction l with
  | nil => rfl
  | cons a t ih =>
    simp only [List.find?, h a (by simp)]
    exact ih fun x hx => h x (by simp [hx])

/-- `find?` over an append skips a prefix the predicate rejects. -/
theorem find?_append_of_none (p : Contact → Bool) (l1 l2 : List Contact)
    (h : ∀ x ∈ l1, p x = false) : (l1 ++ l2).find? p = l2.find? p := by
  induction l1 with
  | nil => rfl
  | cons a t ih =>
    simp only [List.cons_append, List.find?, h a (by simp)]
    exact ih fun x hx => h x (by simp [hx])

/-- `filter` only depends on the predicate's values on the list. -/
theorem filter_congr_mem (p q : Contact → Bool) (l : List Contact)
    (h : ∀ x ∈ l, p x = q x) : l.filter p = l.filter q := by
  induction l with
  | nil => rfl
  | cons a t ih =>
    have ht := ih fun x hx => h x (by simp [hx])
    simp only [List.filter, h a (by simp), ht]

/-- Every member of a list of naturals is at most its `foldr max 0`. -/
theorem le_foldr_max (n : Nat) (l : List Nat) (h : n ∈ l) :
    n ≤ l.foldr Nat.max 0 := by
  induction l with
  | nil => cases h
  | cons a t ih =>
    rcases List.mem_cons.mp h with rfl | hm
    · exact Nat.le_max_left _ _
    · exact Nat.le_trans (ih hm) (Nat.le_max_right _ _)

/-- Regrouping of a duplicated Boolean conjunct. -/
theorem and_regroup (x y z : Bool) : ((x && y) && (x && z)) = ((x && y) && z) := by
  cases x <;> cases y <;> cases z <;> rfl

/-- Claim C5: `search_contacts` with all three filters absent fails with the
invalid-argument error, and the result does not depend on the store. -/
theorem c5_search_without_criteria_fails (skip limit : Nat) (user : User)
    (db db2 : List Contact) :
    search_contacts skip limit none none none user db
        = Except.error "Search criteria are not specified"
      ∧ search_contacts skip limit none none none user db
        = search_contacts skip limit none none none user db2 :=
  ⟨rfl, rfl⟩

/-- Claim C8: `get_upcoming_birthdays` ignores `skip` and `limit`: the
result is the same full matching set for all pagination arguments. -/
theorem c8_birthdays_ignore_pagination (skip limit skip2 limit2 : Nat)
    (user : User) (db : List Contact) (today : Date) :
    get_upcoming_birthdays skip limit user db today
      = get_upcoming_birthdays skip2 limit2 user db today := rfl

/-- Claim C10: an empty-string filter value behaves exactly like an absent
filter in each position, and all-empty-string search fails with the same
invalid-argument error as all-absent search. -/
theorem c10_empty_string_filter_is_absent (skip limit : Nat)
    (fn ln em : Option String) (user : User) (db : List Contact) :
    search_contacts skip limit (some "") ln em user db
        = search_contacts skip limit none ln em user db
      ∧ search_contacts skip limit fn (some "") em user db
        = search_contacts skip limit fn none em user db
      ∧ search_contacts skip limit fn ln (some "") user db
        = search_contacts skip limit fn ln none user db
      ∧ search_contacts skip limit (some "") (some "") (some "") user db
        = search_contacts skip limit none none none user db
      ∧ search_contacts skip limit (some "") (some "") (some "") user db
        = Except.error "Search criteria are not specified" :=
  ⟨rfl, rfl, rfl, rfl, rfl⟩

/-- Claim C1 (code bug): with today = 2024-12-28 the window ends 2025-01-04
and spans two months; the spec's wraparound condition accepts the Dec 30 and
Jan 2 birthdays, but the code conjoins `month == 12` with `month == 1` and
returns the empty list. -/
theorem c1_wraparound_window_returns_nothing :
    addDays dec28 7 = ⟨2025, 1, 4⟩
  ∧ specWrapMatch dec28 (addDays dec28 7) amyDec30.birthday = true
  ∧ specWrapMatch dec28 (addDays dec28 7) ianJan02.birthday = true
  ∧ get_upcoming_birthdays 0 100 ⟨1⟩ [amyDec30, ianJan02] dec28 = [] := by
  refine ⟨by decide, by decide, by decide, by decide⟩

/-- Claim C2 (code bug): `get_upcoming_birthdays` applies no owner filter:
requesting as user 1 returns a matching contact owned by user 2. -/
theorem c2_birthdays_leak_other_owner :
    get_upcoming_birthdays 0 100 ⟨1⟩ [bobMar05] mar01 = [bobMar05]
  ∧ bobMar05.user_id ≠ (1 : Nat) := by
  refine ⟨by decide, by decide⟩

/-- Claim C3 (code bug): `update_contact` on an existing row assigns the
Python 1-tuple `(value,)` to firstname, lastname, email and phone (trailing
commas in the source); only birthday receives the scalar.  The stored field
does not equal the supplied scalar value. -/
theorem c3_update_stores_tuples_not_scalars :
    (update_contact 1 janeBody ⟨1⟩ [johnRow]).2
        = [{ id := 1, firstname := .tuple1 "Jane", lastname := .tuple1 "Doe",
             email := .tuple1 "jane@example.com", phone := .tuple1 "222",
             birthday := ⟨1991, 1, 1⟩, user_id := 1 }]
  ∧ (update_contact 1 janeBody ⟨1⟩ [johnRow]).1.map Contact.firstname
        = some (.tuple1 janeBody.firstname)
  ∧ PyStr.tuple1 janeBody.firstname ≠ PyStr.str janeBody.firstname := by
  refine ⟨by decide, by decide, by decide⟩

/-- Claim C9: `create_contact` then `get_contact` on the returned id under
the same owner yields the created record: its five scalar fields are the
body's values and its id is the id assigned at creation. -/
theorem c9_create_then_get_roundtrip (body : ContactModel) (user : User)
    (db : List Contact) :
    get_contact (create_contact body user db).1.id user (create_contact body user db).2
        = some (create_contact body user db).1
      ∧ (create_contact body user db).1.firstname = PyStr.str body.firstname
      ∧ (create_contact body user db).1.lastname = PyStr.str body.lastname
      ∧ (create_contact body user db).1.email = PyStr.str body.email
      ∧ (create_contact body user db).1.phone = PyStr.str body.phone
      ∧ (create_contact body user db).1.birthday = body.birthday
      ∧ (create_contact body user db).1.id = nextId db := by
  refine ⟨?_, rfl, rfl, rfl, rfl, rfl, rfl⟩
  have hpre : ∀ x ∈ db, (x.id == nextId db && x.user_id == user.id) = false := by
    intro x hx
    have hle : x.id ≤ (db.map Contact.id).foldr Nat.max 0 :=
      le_foldr_max x.id _ (List.mem_map.mpr ⟨x, hx, rfl⟩)
    have hlt : x.id < nextId db := Nat.lt_succ_of_le hle
    simp [Nat.ne_of_lt hlt]
  simp only [create_contact, get_contact]
  rw [find?_append_of_none _ _ _ hpre]
  simp [List.find?]

/-- Claim C4: accessing another owner's contact by id behaves exactly like
accessing an id that exists nowhere: `get_contact`, `update_contact` and
`remove_contact` return the not-found sentinel and leave the store
unchanged in both cases. -/
theorem c4_cross_owner_like_absent (db : List Contact) (c : Contact)
    (A B : User) (body : ContactModel) (freshId : Nat)
    (hmem : c ∈ db) (howner : c.user_id = A.id) (hBA : B.id ≠ A.id)
    (huniq : ∀ x ∈ db, x.id = c.id → x = c)
    (hfresh : ∀ x ∈ db, x.id ≠ freshId) :
    get_contact c.id B db = none
  ∧ update_contact c.id body B db = (none, db)
  ∧ remove_contact c.id B db = (none, db)
  ∧ get_contact freshId B db = none
  ∧ update_contact freshId body B db = (none, db)
  ∧ remove_contact freshId B db = (none, db) := by
  have h1 : ∀ x ∈ db, (x.id == c.id && x.user_id == B.id) = false := by
    intro x hx
    by_cases hid : x.id = c.id
    · have hxc : x = c := huniq x hx hid
      subst hxc
      simp [howner, Ne.symm hBA]
    · simp [hid]
  have h2 : ∀ x ∈ db, (x.id == freshId && x.user_id == B.id) = false := by
    intro x hx
    simp [hfresh x hx]
  have hf1 : db.find? (fun x => x.id == c.id && x.user_id == B.id) = none :=
    find?_eq_none_all _ _ h1
  have hf2 : db.find? (fun x => x.id == freshId && x.user_id == B.id) = none :=
    find?_eq_none_all _ _ h2
  refine ⟨hf1, ?_, ?_, hf2, ?_, ?_⟩ <;>
    simp [update_contact, remove_contact, hf1, hf2]

/-- Witness for C4 at a concrete store: one contact of user 1, requested by
user 2, and the fresh id 99. -/
theorem c4_witness :
    (johnRow ∈ [johnRow] ∧ johnRow.user_id = (User.mk 1).id
      ∧ (User.mk 2).id ≠ (User.mk 1).id
      ∧ (∀ x ∈ [johnRow], x.id = johnRow.id → x = johnRow)
      ∧ (∀ x ∈ [johnRow], x.id ≠ 99))
  ∧ (get_contact johnRow.id ⟨2⟩ [johnRow] = none
      ∧ update_contact johnRow.id janeBody ⟨2⟩ [johnRow] = (none, [johnRow])
      ∧ remove_contact johnRow.id ⟨2⟩ [johnRow] = (none, [johnRow])
      ∧ get_contact 99 ⟨2⟩ [johnRow] = none
      ∧ update_contact 99 janeBody ⟨2⟩ [johnRow] = (none, [johnRow])
      ∧ remove_contact 99 ⟨2⟩ [johnRow] = (none, [johnRow])) :=
  ⟨⟨by decide, by decide, by decide, by decide, by decide⟩,
    c4_cross_owner_like_absent [johnRow] johnRow ⟨1⟩ ⟨2⟩ janeBody 99
      (by decide) (by decide) (by decide) (by decide) (by decide)⟩

/-- Claim C7: when the 7-day window stays inside one month, the code's
condition coincides with the spec's single-month condition, so the query
returns exactly the rows whose birthday month/day lies in the window. -/
theorem c7_no_wraparound_window (skip limit : Nat) (user : User)
    (db : List Contact) (today : Date)
    (h : (addDays today 7).month = today.month) :
    get_upcoming_birthdays skip limit user db today
      = db.filter (fun c => specNoWrapMatch today (addDays today 7) c.birthday) := by
  simp only [get_upcoming_birthdays]
  apply filter_congr_mem
  intro c hc
  simp only [specNoWrapMatch, h]
  exact and_regroup _ _ _

/-- Witness for C7 at today = 2024-03-01: the window ends 2024-03-08, the
Mar 5 birthday matches and the Mar 10 birthday does not. -/
theorem c7_witness :
    (addDays mar01 7).month = mar01.month
  ∧ get_upcoming_birthdays 0 100 ⟨1⟩ [calMar05, donMar10] mar01
      = List.filter (fun c => specNoWrapMatch mar01 (addDays mar01 7) c.birthday)
          [calMar05, donMar10]
  ∧ List.filter (fun c => specNoWrapMatch mar01 (addDays mar01 7) c.birthday)
        [calMar05, donMar10] = [calMar05] :=
  ⟨by decide,
    c7_no_wraparound_window 0 100 ⟨1⟩ [calMar05, donMar10] mar01 (by decide),
    by decide⟩

/-- Each dynamic-filter component contributes, on a scalar attribute,
exactly the conjunct the spec words give it. -/
theorem filterComponent_all (field : Contact → PyStr) (o : Option String)
    (c : Contact) (hv : (field c).isScalar = true) :
    (filterComponent field o).all (fun p => p c)
      = (match o with
         | none => true
         | some s => ilikeContains (field c) s) := by
  rcases o with _ | s
  · rfl
  · by_cases h : s = ""
    · subst h
      simp [filterComponent, ilikeContains_empty_pat _ hv]
    · simp [filterComponent, h]

/-- A filter component is empty exactly when its filter is not supplied
(absent or empty string). -/
theorem filterComponent_eq_nil (field : Contact → PyStr) (o : Option String) :
    filterComponent field o = [] ↔ pySupplied o = false := by
  rcases o with _ | s
  · simp [filterComponent, pySupplied]
  · by_cases h : s = ""
    · subst h; simp [filterComponent, pySupplied]
    · simp [filterComponent, pySupplied, h]

/-- With at least one supplied filter the dynamic filter list is
non-empty. -/
theorem buildFilters_not_empty (fn ln em : Option String)
    (h : (pySupplied fn || pySupplied ln || pySupplied em) = true) :
    (buildFilters fn ln em).isEmpty = false := by
  cases hE : (buildFilters fn ln em).isEmpty
  · rfl
  · exfalso
    have hnil : buildFilters fn ln em = [] := by
      cases hb : buildFilters fn ln em with
      | nil => rfl
      | cons a t => rw [hb] at hE; simp [List.isEmpty] at hE
    rw [buildFilters] at hnil
    rcases List.append_eq_nil.mp hnil with ⟨h12, h3⟩
    rcases List.append_eq_nil.mp h12 with ⟨hc1, hc2⟩
    rw [(filterComponent_eq_nil _ _).mp hc1, (filterComponent_eq_nil _ _).mp hc2,
      (filterComponent_eq_nil _ _).mp h3] at h
    simp at h

/-- On a committed row, a dynamic-filter component whose filter value is
free of SQL pattern metacharacters contributes exactly the spec's
substring conjunct. -/
theorem component_spec_eq (field : Contact → PyStr) (o : Option String)
    (c : Contact) (hv : (field c).isScalar = true) (hp : plainPat o = true) :
    (filterComponent field o).all (fun p => p c) = specConjunct field o c := by
  rw [filterComponent_all field o c hv]
  rcases o with _ | s
  · rfl
  · exact ilikeContains_plain _ _ (List.all_eq_true.mp hp) hv

/-- On a committed (all-scalar) row and metacharacter-free filter values,
the code's conjunction of dynamic filters and owner scope equals the
spec's search predicate. -/
theorem search_pred_eq (fn ln em : Option String) (user : User) (c : Contact)
    (hs : c.scalarRow = true)
    (hfn : plainPat fn = true) (hln : plainPat ln = true)
    (hem : plainPat em = true) :
    ((buildFilters fn ln em).all (fun p => p c) && c.user_id == user.id)
      = specSearchMatch fn ln em user c := by
  simp only [Contact.scalarRow, Bool.and_eq_true] at hs
  obtain ⟨⟨⟨h1, h2⟩, h3⟩, h4⟩ := hs
  rw [buildFilters, List.all_append, List.all_append,
    component_spec_eq _ _ _ h1 hfn, component_spec_eq _ _ _ h2 hln,
    component_spec_eq _ _ _ h3 hem, specSearchMatch]
  simp [Bool.and_assoc]

/-- Claim C6, counterexample to the claim as stated: the code filters with
`ILIKE '%value%'`, whose `_` is a single-character wildcard.  The filter
value "a_c" therefore matches the stored firstname "abc" and
`search_contacts` returns that row, although "a_c" is not a
case-insensitive substring of "abc" — the result differs from the
substring-filtered set the claim describes. -/
theorem c6_counterexample :
    search_contacts 0 100 (some "a_c") none none ⟨1⟩ [abcRow]
        = Except.ok [abcRow]
  ∧ (([abcRow].filter (specSearchMatch (some "a_c") none none ⟨1⟩)).drop 0).take 100
        = []
  ∧ specContains abcRow.firstname "a_c" = false
  ∧ ilikeContains abcRow.firstname "a_c" = true := by
  refine ⟨rfl, by decide, by decide, by decide⟩

/-- Claim C6 as amended: with at least one supplied filter and all supplied
filter values free of the SQL pattern metacharacters `%`, `_` and `\`,
`search_contacts` returns exactly the requesting owner's rows whose fields
contain every supplied filter value case-insensitively, with
`skip`/`limit` pagination applied to that filtered set. -/
theorem c6_search_is_scoped_ci_conjunction (skip limit : Nat)
    (fn ln em : Option String) (user : User) (db : List Contact)
    (hWF : ∀ x ∈ db, x.scalarRow = true)
    (hcrit : (pySupplied fn || pySupplied ln || pySupplied em) = true)
    (hfn : plainPat fn = true) (hln : plainPat ln = true)
    (hem : plainPat em = true) :
    search_contacts skip limit fn ln em user db
      = Except.ok (((db.filter (specSearchMatch fn ln em user)).drop skip).take limit) := by
  have hE := buildFilters_not_empty fn ln em hcrit
  have hfil : db.filter
        (fun c => (buildFilters fn ln em).all (fun p => p c) && c.user_id == user.id)
      = db.filter (specSearchMatch fn ln em user) :=
    filter_congr_mem _ _ db
      (fun x hx => search_pred_eq fn ln em user x (hWF x hx) hfn hln hem)
  simp only [search_contacts, hE, hfil]
  simp

/-- Witness for the amended C6: the spec's search test vector, filtering by
the metacharacter-free firstname value "spi" as user 1. -/
theorem c6_witness :
    ((∀ x ∈ [spiderRow, starkRow], x.scalarRow = true)
      ∧ (pySupplied (some "spi") || pySupplied none || pySupplied none) = true
      ∧ plainPat (some "spi") = true ∧ plainPat none = true)
  ∧ search_contacts 0 100 (some "spi") none none ⟨1⟩ [spiderRow, starkRow]
      = Except.ok ((([spiderRow, starkRow].filter
          (specSearchMatch (some "spi") none none ⟨1⟩)).drop 0).take 100)
  ∧ [spiderRow, starkRow].filter (specSearchMatch (some "spi") none none ⟨1⟩)
      = [spiderRow] :=
  ⟨⟨by decide, by decide, by decide, by decide⟩,
    c6_search_is_scoped_ci_conjunction 0 100 (some "spi") none none ⟨1⟩
      [spiderRow, starkRow] (by decide) (by decide) (by decide) (by decide)
      (by decide),
    by decide⟩

end Contacts
